import Mathlib

/-!
Verification of the db2lake core against its specification.

The definitions below are shallow embeddings of the TypeScript source:

* `fetchLoop` / `fetch` embed the cursor-pagination generator that appears
  verbatim in `MySQLSourceDriver.fetch`, `PostgresSourceDriver.fetch` and
  `OracleSourceDriver.fetch` (the three loops are line-for-line identical).
  The stateful backend (`connection.execute` / `client.query`) is modelled as
  a function from the call index and the bound parameters to the resulting
  rows; the `while` loop is given explicit fuel since the JS loop's
  termination depends on the backend.
* `processGo` / `process`, `stepOk`, `metricsAfter` and `cleanup` embed
  `IPipeline.process`, `IPipeline.getMetrics` and `IPipeline.cleanup` from
  `packages/core/src/pipeline.ts`.
* `sfExecuteInsert` / `snowflakeInsert` and `snowflakeSlices` embed the retry
  and slicing logic of `SnowflakeDestinationDriver.insert`.
* `dbFlushGo`, `databricksFlushBatch`, `databricksInsert` and
  `databricksClose` embed `DatabricksDestinationDriver`.
-/

set_option autoImplicit false

/-- A database record is modelled as an association list from field names to
integer values; `rowGet` is JS property access (`lastRow[field]`), returning
`none` for `undefined`. -/
abbrev Row := List (String × Int)

/-- Field lookup on a record; the first binding wins, as for JS objects. -/
def rowGet (r : Row) (f : String) : Option Int :=
  (r.find? (fun p => p.1 == f)).map (fun p => p.2)

/-- Embedding of the driver configuration consumed by the paginator:
`{ query, params, cursorField, cursorParamsIndex }` from the MySQL, Postgres
and Oracle config types.  Bind values are modelled as integers. -/
structure QuerySpec where
  query : String
  params : List Int
  cursorField : Option String
  cursorParamsIndex : Option Nat
deriving Repr, DecidableEq

/-- Observable trace of one full consumption of the `fetch()` generator:
the bound parameters of every query execution, the yielded batches, the
final value of the local (cloned) `params` array, and the driver
configuration's own `params` array threaded through the loop (the source
never assigns to it; only the clone is updated). -/
structure FetchTrace where
  calls : List (List Int)
  batches : List (List Row)
  finalParams : List Int
  configParams : List Int
deriving Repr, DecidableEq

/-- Embedding of the cursor-overwrite step at the top of the loop:
`if (cursorField && typeof cursorParamsIndex === 'number' && cursorValue !==
undefined) params[cursorParamsIndex] = cursorValue`. -/
def applyCursor (cfg : QuerySpec) (cursorValue : Option Int)
    (params : List Int) : List Int :=
  match cfg.cursorField, cfg.cursorParamsIndex, cursorValue with
  | some _, some i, some v => params.set i v
  | _, _, _ => params

/-- Embedding of the cursor update after a yield: produce the next cursor
value exactly when `cursorField` is configured and the last row of the batch
carries it; otherwise pagination stops (`hasMore = false`). -/
def continueCursor (cfg : QuerySpec) (rows : List Row) : Option Int :=
  match cfg.cursorField with
  | none => none
  | some f => rows.getLast?.bind (fun r => rowGet r f)

/-- Embedding of the `while (hasMore)` pagination loop shared by the MySQL,
Postgres and Oracle source drivers.  `exec i ps` is the backend's response to
the `i`-th query execution with bound parameters `ps`.  `fuel` bounds the
number of iterations; every claim below quantifies over it or supplies a
sufficient amount. -/
def fetchLoop (cfg : QuerySpec) (exec : Nat → List Int → List Row) :
    Nat → Nat → Option Int → List Int → List Int → FetchTrace
  | 0, _, _, params, cfgParams => ⟨[], [], params, cfgParams⟩
  | fuel + 1, callIdx, cursorValue, params, cfgParams =>
    let p := applyCursor cfg cursorValue params
    match exec callIdx p with
    | [] => ⟨[p], [], p, cfgParams⟩
    | row :: more =>
      match continueCursor cfg (row :: more) with
      | none => ⟨[p], [row :: more], p, cfgParams⟩
      | some v =>
        let rest := fetchLoop cfg exec fuel (callIdx + 1) (some v) p cfgParams
        ⟨p :: rest.calls, (row :: more) :: rest.batches,
          rest.finalParams, rest.configParams⟩

/-- Embedding of `fetch()`: clone `config.params` into the local `params`
(`let params = Array.isArray(this.config.params) ? [...this.config.params]
: []`) and run the pagination loop from call 0 with no cursor value. -/
def fetch (cfg : QuerySpec) (exec : Nat → List Int → List Row)
    (fuel : Nat) : FetchTrace :=
  fetchLoop cfg exec fuel 0 none cfg.params cfg.params

/-- Every batch produced by the pagination loop is non-empty: the empty
result set takes the `break` branch before the `yield`. -/
lemma fetchLoop_batches_nonempty (cfg : QuerySpec)
    (exec : Nat → List Int → List Row) :
    ∀ (fuel callIdx : Nat) (cursorValue : Option Int)
      (params cfgParams : List Int) (b : List Row),
      b ∈ (fetchLoop cfg exec fuel callIdx cursorValue params cfgParams).batches →
      b ≠ [] := by
  intro fuel
  induction fuel with
  | zero =>
    intro callIdx cursorValue params cfgParams b hb
    simp [fetchLoop] at hb
  | succ n ih =>
    intro callIdx cursorValue params cfgParams b hb
    simp only [fetchLoop] at hb
    split at hb
    · simp at hb
    · split at hb
      · simp at hb
        simp [hb]
      · simp at hb
        rcases hb with hb | hb
        · simp [hb]
        · exact ih _ _ _ _ b hb

/-- The loop threads the configuration's `params` array through unchanged:
only the clone is the target of the cursor assignment. -/
lemma fetchLoop_configParams (cfg : QuerySpec)
    (exec : Nat → List Int → List Row) :
    ∀ (fuel callIdx : Nat) (cursorValue : Option Int)
      (params cfgParams : List Int),
      (fetchLoop cfg exec fuel callIdx cursorValue params cfgParams).configParams =
        cfgParams := by
  intro fuel
  induction fuel with
  | zero =>
    intro callIdx cursorValue params cfgParams
    simp [fetchLoop]
  | succ n ih =>
    intro callIdx cursorValue params cfgParams
    simp only [fetchLoop]
    split
    · rfl
    · split
      · rfl
      · simpa using ih _ _ _ cfgParams

/-- C5: for every source paginator configuration, backend behaviour and
iteration bound, every batch yielded by `fetch()` is non-empty; an empty
result set terminates the sequence instead of being yielded. -/
theorem paginator_batches_nonempty (cfg : QuerySpec)
    (exec : Nat → List Int → List Row) (fuel : Nat) (b : List Row)
    (hb : b ∈ (fetch cfg exec fuel).batches) : b ≠ [] :=
  fetchLoop_batches_nonempty cfg exec fuel 0 none cfg.params cfg.params b hb

/-- Witness for `paginator_batches_nonempty` at a concrete configuration and
backend: the single yielded batch `[{id := 1}]` is non-empty. -/
theorem paginator_batches_nonempty_witness :
    [[("id", (1 : Int))]] ∈
      (fetch ⟨"q", [0], none, none⟩ (fun i _ => if i = 0 then [[("id", 1)]] else [])
        3).batches ∧
    [[("id", (1 : Int))]] ≠ [] := by
  constructor
  · decide
  · exact paginator_batches_nonempty ⟨"q", [0], none, none⟩
      (fun i _ => if i = 0 then [[("id", 1)]] else []) 3 _ (by decide)

/-- C9: `fetch()` never mutates the `params` array held in the driver's
configuration: the loop clones it on entry and the cursor assignments
overwrite only the clone, so the configuration's array is unchanged after
the sequence is fully consumed. -/
theorem fetch_params_frame (cfg : QuerySpec)
    (exec : Nat → List Int → List Row) (fuel : Nat) :
    (fetch cfg exec fuel).configParams = cfg.params :=
  fetchLoop_configParams cfg exec fuel 0 none cfg.params cfg.params

/-- C4 (Scenario C): with `cursorField "id"`, `cursorParamsIndex 0`, initial
`params [0]` and a backend returning pages `[{id:1},{id:2}]`, `[{id:3}]`,
`[]`, the paginator issues exactly 3 query executions whose bound parameters
are `[0]`, `[2]`, `[3]`, and terminates after the empty third result without
yielding it. -/
theorem paginator_scenario_c :
    (fetch ⟨"q", [0], some "id", some 0⟩
        (fun i _ =>
          if i = 0 then [[("id", 1)], [("id", 2)]]
          else if i = 1 then [[("id", 3)]]
          else [])
        10).calls = [[0], [2], [3]] ∧
    (fetch ⟨"q", [0], some "id", some 0⟩
        (fun i _ =>
          if i = 0 then [[("id", 1)], [("id", 2)]]
          else if i = 1 then [[("id", 3)]]
          else [])
        10).batches = [[[("id", 1)], [("id", 2)]], [[("id", 3)]]] := by
  constructor
  · decide
  · decide

/-- Embedding of the Pipeline Cursor (progress snapshot) from
`pipeline.type.ts` / `IPipeline.process`: `{ position, lastItem, timestamp }`.
`lastItem` is `batch[batch.length - 1]`, which is `undefined` (`none`) on an
empty batch; the wall clock `new Date().toISOString()` is abstracted as a
caller-supplied clock indexed by the batch counter. -/
structure PipelineCursor (α : Type) where
  position : Nat
  lastItem : Option α
  timestamp : Nat
deriving Repr, DecidableEq

/-- Embedding of the private mutable fields of `IPipeline`:
`connected`, `batchCount`, `totalRows`, `currentCursor`. -/
structure PState (α : Type) where
  connected : Bool
  batchCount : Nat
  totalRows : Nat
  currentCursor : Option (PipelineCursor α)
deriving Repr, DecidableEq

/-- The field values set by the `IPipeline` constructor. -/
def pInit {α : Type} : PState α := ⟨false, 0, 0, none⟩

/-- Embedding of the per-batch success path of `IPipeline.process`
(lines 139-147): increment `batchCount`, add the ORIGINAL batch length to
`totalRows`, and replace the cursor with
`{ position: totalRows, lastItem: batch[batch.length-1], timestamp: now }`. -/
def stepOk {α : Type} (clock : Nat → Nat) (st : PState α)
    (batch : List α) : PState α :=
  { st with
    batchCount := st.batchCount + 1
    totalRows := st.totalRows + batch.length
    currentCursor := some
      ⟨st.totalRows + batch.length, batch.getLast?, clock st.batchCount⟩ }

/-- State reached by processing a list of batches with every transform and
insert succeeding: the fold of `stepOk`. -/
def metricsAfter {α : Type} (clock : Nat → Nat) (st : PState α) :
    List (List α) → PState α
  | [] => st
  | b :: bs => metricsAfter clock (stepOk clock st b) bs

/-- Outcome of one `process()` run: the propagated result, the final field
state (what `getMetrics()` reads), the batches passed to
`Destination.insert`, in order, and the cursor snapshots recorded after each
successful batch, in order (the value `this.currentCursor` holds right after
the per-batch update, as logged by the per-batch debug log call). -/
structure ProcessOut (α β : Type) where
  result : Except String Unit
  state : PState α
  inserted : List (List β)
  cursors : List (PipelineCursor α)
deriving Repr

/-- Embedding of the `for await` loop of `IPipeline.process`.  The source's
batch sequence is a list of yielded batches followed by an optional error the
generator throws after them (`fetchErr`).  `t` is the transform step
(`this.transformer ? this.transformer(batch) : batch`; absence of a
transformer is the instance `fun b => Except.ok b` at `β = α`).  `ins i tb`
is `Destination.insert` on the `i`-th (0-based) transformed batch.  Any
error aborts the loop immediately and is re-thrown with the state
unchanged. -/
def processGo {α β : Type} (t : List α → Except String (List β))
    (ins : Nat → List β → Except String Unit) (clock : Nat → Nat) :
    List (List α) → Option String → PState α → ProcessOut α β
  | [], none, st => ⟨Except.ok (), st, [], []⟩
  | [], some e, st => ⟨Except.error e, st, [], []⟩
  | batch :: rest, fetchErr, st =>
    match t batch with
    | Except.error e => ⟨Except.error e, st, [], []⟩
    | Except.ok tb =>
      match ins st.batchCount tb with
      | Except.error e => ⟨Except.error e, st, [], []⟩
      | Except.ok _ =>
        let out := processGo t ins clock rest fetchErr (stepOk clock st batch)
        ⟨out.result, out.state, tb :: out.inserted,
          ⟨st.totalRows + batch.length, batch.getLast?, clock st.batchCount⟩ ::
            out.cursors⟩

/-- A full `process()` run from the constructor's field state. -/
def process {α β : Type} (t : List α → Except String (List β))
    (ins : Nat → List β → Except String Unit) (clock : Nat → Nat)
    (batches : List (List α)) (fetchErr : Option String) : ProcessOut α β :=
  processGo t ins clock batches fetchErr pInit

/-- Unfolding equation for the loop when the transform of the head batch
fails: the loop aborts with the state unchanged. -/
lemma processGo_cons_transform_error {α β : Type}
    (t : List α → Except String (List β))
    (ins : Nat → List β → Except String Unit) (clock : Nat → Nat)
    (b : List α) (bs : List (List α)) (fetchErr : Option String)
    (st : PState α) (e : String) (hT : t b = Except.error e) :
    processGo t ins clock (b :: bs) fetchErr st =
      ⟨Except.error e, st, [], []⟩ := by
  simp [processGo, hT]

/-- Unfolding equation for the loop when the insert of the head batch fails:
the loop aborts with the state unchanged. -/
lemma processGo_cons_insert_error {α β : Type}
    (t : List α → Except String (List β))
    (ins : Nat → List β → Except String Unit) (clock : Nat → Nat)
    (b : List α) (bs : List (List α)) (fetchErr : Option String)
    (st : PState α) (tb : List β) (e : String) (hT : t b = Except.ok tb)
    (hI : ins st.batchCount tb = Except.error e) :
    processGo t ins clock (b :: bs) fetchErr st =
      ⟨Except.error e, st, [], []⟩ := by
  simp [processGo, hT, hI]

/-- Unfolding equation for the loop when the head batch is transformed and
inserted successfully. -/
lemma processGo_cons_ok {α β : Type} (t : List α → Except String (List β))
    (ins : Nat → List β → Except String Unit) (clock : Nat → Nat)
    (b : List α) (bs : List (List α)) (fetchErr : Option String)
    (st : PState α) (tb : List β) (hT : t b = Except.ok tb)
    (hI : ins st.batchCount tb = Except.ok ()) :
    processGo t ins clock (b :: bs) fetchErr st =
      ⟨(processGo t ins clock bs fetchErr (stepOk clock st b)).result,
        (processGo t ins clock bs fetchErr (stepOk clock st b)).state,
        tb :: (processGo t ins clock bs fetchErr (stepOk clock st b)).inserted,
        ⟨st.totalRows + b.length, b.getLast?, clock st.batchCount⟩ ::
          (processGo t ins clock bs fetchErr (stepOk clock st b)).cursors⟩ := by
  simp [processGo, hT, hI]

/-- If the loop finishes without error, the final counters are the initial
ones plus the sum of the original batch lengths and the number of batches. -/
lemma processGo_ok_counts {α β : Type} (t : List α → Except String (List β))
    (ins : Nat → List β → Except String Unit) (clock : Nat → Nat) :
    ∀ (batches : List (List α)) (fetchErr : Option String) (st : PState α),
      (processGo t ins clock batches fetchErr st).result = Except.ok () →
      (processGo t ins clock batches fetchErr st).state.totalRows =
          st.totalRows + (batches.map List.length).sum ∧
        (processGo t ins clock batches fetchErr st).state.batchCount =
          st.batchCount + batches.length := by
  intro batches
  induction batches with
  | nil =>
    intro fetchErr st h
    cases fetchErr with
    | none => simp [processGo]
    | some e => simp [processGo] at h
  | cons b bs ih =>
    intro fetchErr st h
    rcases hT : t b with e | tb
    · rw [processGo_cons_transform_error t ins clock b bs fetchErr st e hT] at h
      simp at h
    · rcases hI : ins st.batchCount tb with e | u
      · rw [processGo_cons_insert_error t ins clock b bs fetchErr st tb e hT hI] at h
        simp at h
      · cases u
        rw [processGo_cons_ok t ins clock b bs fetchErr st tb hT hI] at h ⊢
        rcases ih fetchErr (stepOk clock st b) h with ⟨h1, h2⟩
        have hsr : (stepOk clock st b).totalRows = st.totalRows + b.length := rfl
        have hsb : (stepOk clock st b).batchCount = st.batchCount + 1 := rfl
        refine ⟨?_, ?_⟩
        · simp only [List.map_cons, List.sum_cons]
          omega
        · simp only [List.length_cons]
          omega

/-- The final state of the loop is always the `stepOk` fold over exactly the
prefix of original batches whose inserts succeeded. -/
lemma processGo_state_metricsAfter {α β : Type}
    (t : List α → Except String (List β))
    (ins : Nat → List β → Except String Unit) (clock : Nat → Nat) :
    ∀ (batches : List (List α)) (fetchErr : Option String) (st : PState α),
      (processGo t ins clock batches fetchErr st).state =
        metricsAfter clock st
          (batches.take (processGo t ins clock batches fetchErr st).inserted.length) := by
  intro batches
  induction batches with
  | nil =>
    intro fetchErr st
    cases fetchErr <;> simp [processGo, metricsAfter]
  | cons b bs ih =>
    intro fetchErr st
    simp only [processGo]
    split
    · simp [metricsAfter]
    · split
      · simp [metricsAfter]
      · simpa [metricsAfter] using ih fetchErr (stepOk clock st b)

/-- The loop inserts at most one transformed batch per original batch. -/
lemma processGo_inserted_le {α β : Type} (t : List α → Except String (List β))
    (ins : Nat → List β → Except String Unit) (clock : Nat → Nat) :
    ∀ (batches : List (List α)) (fetchErr : Option String) (st : PState α),
      (processGo t ins clock batches fetchErr st).inserted.length ≤
        batches.length := by
  intro batches
  induction batches with
  | nil =>
    intro fetchErr st
    cases fetchErr <;> simp [processGo]
  | cons b bs ih =>
    intro fetchErr st
    simp only [processGo]
    split
    · simp
    · split
      · simp
      · simpa using ih fetchErr (stepOk clock st b)

/-- The `stepOk` fold adds one to `batchCount` per batch. -/
lemma metricsAfter_batchCount {α : Type} (clock : Nat → Nat) :
    ∀ (bs : List (List α)) (st : PState α),
      (metricsAfter clock st bs).batchCount = st.batchCount + bs.length := by
  intro bs
  induction bs with
  | nil => intro st; simp [metricsAfter]
  | cons b bs ih =>
    intro st
    simp [metricsAfter, ih, stepOk]
    omega

/-- C3: in every run whose processing loop completes without error,
`getMetrics()` reports `totalRows` equal to the sum of the lengths of the
original (pre-transform) batches the source yielded, and `batchCount` equal
to the number of batches the source yielded. -/
theorem metrics_successful_run {α β : Type}
    (t : List α → Except String (List β))
    (ins : Nat → List β → Except String Unit) (clock : Nat → Nat)
    (batches : List (List α)) (fetchErr : Option String)
    (h : (process t ins clock batches fetchErr).result = Except.ok ()) :
    (process t ins clock batches fetchErr).state.totalRows =
        (batches.map List.length).sum ∧
      (process t ins clock batches fetchErr).state.batchCount =
        batches.length := by
  have hc := processGo_ok_counts t ins clock batches fetchErr pInit h
  simpa [process, pInit] using hc

/-- Witness for `metrics_successful_run` on the run of Scenario A: source
yields `[[1,2],[3]]`, no transform, inserts succeed; `totalRows = 3` and
`batchCount = 2`. -/
theorem metrics_successful_run_witness :
    (process (fun b => Except.ok b) (fun _ _ => Except.ok ()) (fun n => n)
        [[1, 2], [(3 : Int)]] none).result = Except.ok () ∧
    (process (fun b => Except.ok b) (fun _ _ => Except.ok ()) (fun n => n)
        [[1, 2], [(3 : Int)]] none).state.totalRows = 3 ∧
    (process (fun b => Except.ok b) (fun _ _ => Except.ok ()) (fun n => n)
        [[1, 2], [(3 : Int)]] none).state.batchCount = 2 := by
  have h := metrics_successful_run (fun b => Except.ok b)
    (fun _ _ => Except.ok ()) (fun n => n) [[1, 2], [(3 : Int)]] none rfl
  exact ⟨rfl, h.1.trans (by decide), h.2.trans (by decide)⟩

/-- Every batch the destination receives is the transform of the
corresponding original source batch: the successfully processed prefix of
the source's batches is related pointwise to the inserted batches by the
transform step. -/
lemma processGo_inserted_transformed {α β : Type}
    (t : List α → Except String (List β))
    (ins : Nat → List β → Except String Unit) (clock : Nat → Nat) :
    ∀ (batches : List (List α)) (fetchErr : Option String) (st : PState α),
      List.Forall₂ (fun b tb => t b = Except.ok tb)
        (batches.take (processGo t ins clock batches fetchErr st).inserted.length)
        (processGo t ins clock batches fetchErr st).inserted := by
  intro batches
  induction batches with
  | nil =>
    intro fetchErr st
    cases fetchErr <;> simp [processGo]
  | cons b bs ih =>
    intro fetchErr st
    rcases hT : t b with e | tb
    · rw [processGo_cons_transform_error t ins clock b bs fetchErr st e hT]
      simp
    · rcases hI : ins st.batchCount tb with e | u
      · rw [processGo_cons_insert_error t ins clock b bs fetchErr st tb e hT hI]
        simp
      · cases u
        rw [processGo_cons_ok t ins clock b bs fetchErr st tb hT hI]
        simp only [List.length_cons, List.take_succ_cons]
        exact List.Forall₂.cons hT (ih fetchErr (stepOk clock st b))

/-- The cursor snapshot recorded after each successful batch carries, as
`lastItem`, the last record of the corresponding ORIGINAL (pre-transform)
batch. -/
lemma processGo_cursors_lastItem {α β : Type}
    (t : List α → Except String (List β))
    (ins : Nat → List β → Except String Unit) (clock : Nat → Nat) :
    ∀ (batches : List (List α)) (fetchErr : Option String) (st : PState α),
      List.Forall₂ (fun b c => (c : PipelineCursor α).lastItem = b.getLast?)
        (batches.take (processGo t ins clock batches fetchErr st).cursors.length)
        (processGo t ins clock batches fetchErr st).cursors := by
  intro batches
  induction batches with
  | nil =>
    intro fetchErr st
    cases fetchErr <;> simp [processGo]
  | cons b bs ih =>
    intro fetchErr st
    rcases hT : t b with e | tb
    · rw [processGo_cons_transform_error t ins clock b bs fetchErr st e hT]
      simp
    · rcases hI : ins st.batchCount tb with e | u
      · rw [processGo_cons_insert_error t ins clock b bs fetchErr st tb e hT hI]
        simp
      · cases u
        rw [processGo_cons_ok t ins clock b bs fetchErr st tb hT hI]
        simp only [List.length_cons, List.take_succ_cons]
        exact List.Forall₂.cons rfl (ih fetchErr (stepOk clock st b))

/-- One cursor snapshot is recorded per inserted batch. -/
lemma processGo_cursors_length {α β : Type}
    (t : List α → Except String (List β))
    (ins : Nat → List β → Except String Unit) (clock : Nat → Nat) :
    ∀ (batches : List (List α)) (fetchErr : Option String) (st : PState α),
      (processGo t ins clock batches fetchErr st).cursors.length =
        (processGo t ins clock batches fetchErr st).inserted.length := by
  intro batches
  induction batches with
  | nil =>
    intro fetchErr st
    cases fetchErr <;> simp [processGo]
  | cons b bs ih =>
    intro fetchErr st
    rcases hT : t b with e | tb
    · rw [processGo_cons_transform_error t ins clock b bs fetchErr st e hT]
      rfl
    · rcases hI : ins st.batchCount tb with e | u
      · rw [processGo_cons_insert_error t ins clock b bs fetchErr st tb e hT hI]
        rfl
      · cases u
        rw [processGo_cons_ok t ins clock b bs fetchErr st tb hT hI]
        simp [ih fetchErr (stepOk clock st b)]

/-- C6: in every run with a transformer configured, for every batch the
Pipeline processes, `Destination.insert` receives the TRANSFORMED batch
(each inserted batch is the transform of the corresponding original source
batch) while the cursor snapshot recorded after that batch has `lastItem`
equal to the last record of the ORIGINAL pre-transform batch; one snapshot
is recorded per inserted batch.  The claim's Scenario B is the instance
`transform_cursor_scenario_b_instance` below. -/
theorem transform_insert_cursor_universal {α β : Type}
    (t : List α → Except String (List β))
    (ins : Nat → List β → Except String Unit) (clock : Nat → Nat)
    (batches : List (List α)) (fetchErr : Option String) :
    List.Forall₂ (fun b tb => t b = Except.ok tb)
      (batches.take (process t ins clock batches fetchErr).inserted.length)
      (process t ins clock batches fetchErr).inserted ∧
    List.Forall₂ (fun b c => (c : PipelineCursor α).lastItem = b.getLast?)
      (batches.take (process t ins clock batches fetchErr).cursors.length)
      (process t ins clock batches fetchErr).cursors ∧
    (process t ins clock batches fetchErr).cursors.length =
      (process t ins clock batches fetchErr).inserted.length :=
  ⟨processGo_inserted_transformed t ins clock batches fetchErr pInit,
    processGo_cursors_lastItem t ins clock batches fetchErr pInit,
    processGo_cursors_length t ins clock batches fetchErr pInit⟩

/-- Scenario B of the specification as a concrete instance: the source
yields the single batch `[{id:1},{id:2}]` and the transform maps `id` to
`id * 10`; the destination receives `[{id:10},{id:20}]`, while the recorded
cursor has `lastItem` equal to the ORIGINAL untransformed `{id:2}`
(position 2, timestamp `clock 0`). -/
theorem transform_cursor_scenario_b_instance :
    (process (fun b => Except.ok (b.map (fun r => r.map (fun p => (p.1, p.2 * 10)))))
        (fun _ _ => Except.ok ()) (fun n => n)
        [[[("id", (1 : Int))], [("id", 2)]]] none).inserted =
      [[[("id", (10 : Int))], [("id", 20)]]] ∧
    (process (fun b => Except.ok (b.map (fun r => r.map (fun p => (p.1, p.2 * 10)))))
        (fun _ _ => Except.ok ()) (fun n => n)
        [[[("id", (1 : Int))], [("id", 2)]]] none).state.currentCursor =
      some ⟨2, some [("id", (2 : Int))], 0⟩ :=
  ⟨rfl, rfl⟩

/-- C7: if fetching, transforming or inserting a batch fails, the loop
aborts and re-throws, and `getMetrics()` afterwards reflects exactly the
batches that succeeded: the final state is the success-fold over the prefix
of original batches whose inserts completed, and `batchCount` counts exactly
those batches — the failing batch changes no metrics and no cursor. -/
theorem failed_run_metrics {α β : Type}
    (t : List α → Except String (List β))
    (ins : Nat → List β → Except String Unit) (clock : Nat → Nat)
    (batches : List (List α)) (fetchErr : Option String) (e : String)
    (_h : (process t ins clock batches fetchErr).result = Except.error e) :
    (process t ins clock batches fetchErr).state =
        metricsAfter clock pInit
          (batches.take (process t ins clock batches fetchErr).inserted.length) ∧
      (process t ins clock batches fetchErr).state.batchCount =
        (process t ins clock batches fetchErr).inserted.length := by
  have hs := processGo_state_metricsAfter t ins clock batches fetchErr
    (pInit (α := α))
  have hle := processGo_inserted_le t ins clock batches fetchErr
    (pInit (α := α))
  refine ⟨hs, ?_⟩
  simp only [process]
  rw [hs, metricsAfter_batchCount, List.length_take]
  have h0 : (pInit (α := α)).batchCount = 0 := rfl
  omega

/-- Witness for `failed_run_metrics`: inserts fail from the second batch on;
after the run the metrics are those recorded after the first batch only. -/
theorem failed_run_metrics_witness :
    (process (fun b => Except.ok b)
        (fun i _ => if i = 0 then Except.ok () else Except.error "boom")
        (fun n => n) [[1, 2], [3], [(4 : Int)]] none).result =
      Except.error "boom" ∧
    ((process (fun b => Except.ok b)
        (fun i _ => if i = 0 then Except.ok () else Except.error "boom")
        (fun n => n) [[1, 2], [3], [(4 : Int)]] none).state =
        metricsAfter (fun n => n) pInit
          ([[1, 2], [3], [(4 : Int)]].take
            (process (fun b => Except.ok b)
              (fun i _ => if i = 0 then Except.ok () else Except.error "boom")
              (fun n => n) [[1, 2], [3], [(4 : Int)]] none).inserted.length) ∧
      (process (fun b => Except.ok b)
          (fun i _ => if i = 0 then Except.ok () else Except.error "boom")
          (fun n => n) [[1, 2], [3], [(4 : Int)]] none).state.batchCount =
        (process (fun b => Except.ok b)
          (fun i _ => if i = 0 then Except.ok () else Except.error "boom")
          (fun n => n) [[1, 2], [3], [(4 : Int)]] none).inserted.length) :=
  ⟨rfl, failed_run_metrics (fun b => Except.ok b)
    (fun i _ => if i = 0 then Except.ok () else Except.error "boom")
    (fun n => n) [[1, 2], [3], [(4 : Int)]] none "boom" rfl⟩

/-- The two adapters whose `close()` the pipeline's `cleanup()` invokes. -/
inductive CloseTarget where
  | source
  | dest
deriving Repr, DecidableEq

/-- Observable outcome of one `IPipeline.cleanup()` call: the result
propagated to the caller, the updated field state, the close calls that were
attempted (in order), and which close failures were logged at `error`
level. -/
structure CleanupOut (α : Type) where
  result : Except String Unit
  state : PState α
  attempted : List CloseTarget
  closeErrorLogs : List CloseTarget
deriving Repr

/-- Embedding of `IPipeline.cleanup()` (pipeline.ts lines 191-215).  Each of
`source.close()` and `destination.close()` runs inside its own `try`/`catch`
whose handler only logs, so a close failure is recorded and swallowed and
the second close is attempted regardless of the first; afterwards
`connected` is set to `false`.  The surrounding `try`/`catch` can only
rethrow an error raised by the logger itself, and the Logger contract says
logging never throws, so `cleanup` always returns normally. -/
def cleanup {α : Type} (srcClose dstClose : Except String Unit)
    (st : PState α) : CleanupOut α :=
  let srcLog : List CloseTarget :=
    match srcClose with
    | Except.ok _ => []
    | Except.error _ => [CloseTarget.source]
  let dstLog : List CloseTarget :=
    match dstClose with
    | Except.ok _ => []
    | Except.error _ => [CloseTarget.dest]
  ⟨Except.ok (), { st with connected := false },
    [CloseTarget.source, CloseTarget.dest], srcLog ++ dstLog⟩

/-- Counterexample to C2: when both `Source.close()` and
`Destination.close()` fail, `cleanup()` still returns normally — no
aggregate cleanup failure is surfaced to the caller, contrary to the
claim. -/
theorem cleanup_both_fail_counterexample :
    (cleanup (Except.error "source close failed")
        (Except.error "destination close failed")
        (pInit : PState Int)).result = Except.ok () :=
  rfl

/-- C2 as amended: a failure closing one adapter never prevents attempting
the other (both closes are always attempted, source first), each close
failure is logged and not thrown, and `cleanup()` returns normally even
when both closes fail — close errors are never surfaced to the caller. -/
theorem cleanup_amended {α : Type} (srcClose dstClose : Except String Unit)
    (st : PState α) :
    (cleanup srcClose dstClose st).result = Except.ok () ∧
    (cleanup srcClose dstClose st).attempted =
      [CloseTarget.source, CloseTarget.dest] ∧
    ((∃ e, srcClose = Except.error e) ↔
      CloseTarget.source ∈ (cleanup srcClose dstClose st).closeErrorLogs) ∧
    ((∃ e, dstClose = Except.error e) ↔
      CloseTarget.dest ∈ (cleanup srcClose dstClose st).closeErrorLogs) ∧
    (cleanup srcClose dstClose st).state.connected = false := by
  rcases srcClose with e1 | u1 <;> rcases dstClose with e2 | u2 <;>
    simp [cleanup]

/-- Propagated results (`Except`) are compared decidably so that concrete
runs of the writer models can be checked by evaluation. -/
instance {ε α : Type} [DecidableEq ε] [DecidableEq α] :
    DecidableEq (Except ε α) := fun x y =>
  match x, y with
  | Except.error a, Except.error b => decidable_of_iff (a = b) (by simp)
  | Except.ok a, Except.ok b => decidable_of_iff (a = b) (by simp)
  | Except.error _, Except.ok _ => isFalse (fun h => Except.noConfusion h)
  | Except.ok _, Except.error _ => isFalse (fun h => Except.noConfusion h)

/-- Observable outcome of one `SnowflakeDestinationDriver.insert` call: the
propagated result and the number of attempts, `ROLLBACK`s and `COMMIT`s
issued by the retry loop.  Backend failures are abstracted per attempt
(`fails i` says whether the `i`-th invocation of `executeInsert` throws);
the error payload is opaque and modelled as a fixed message. -/
structure SfInsertOut where
  result : Except String Unit
  attempts : Nat
  rollbacks : Nat
  commits : Nat
deriving Repr, DecidableEq

/-- Embedding of the recursive `executeInsert` closure of
`SnowflakeDestinationDriver.insert`.  The first `Nat` argument is
`maxRetries - retryCount` (the retry budget left); on an error the code
rolls back when transactions are enabled, and retries while
`retryCount < maxRetries`, so an exhausted budget rethrows. -/
def sfExecuteInsert (fails : Nat → Bool) (txn : Bool) :
    Nat → Nat → SfInsertOut
  | 0, i =>
    if fails i then
      ⟨Except.error "insert failed", 1, if txn then 1 else 0, 0⟩
    else
      ⟨Except.ok (), 1, 0, if txn then 1 else 0⟩
  | budget + 1, i =>
    if fails i then
      let rest := sfExecuteInsert fails txn budget (i + 1)
      ⟨rest.result, rest.attempts + 1,
        rest.rollbacks + (if txn then 1 else 0), rest.commits⟩
    else
      ⟨Except.ok (), 1, 0, if txn then 1 else 0⟩

/-- Embedding of `SnowflakeDestinationDriver.insert`: empty input returns
immediately; otherwise `executeInsert` runs with `retryCount = 0`. -/
def snowflakeInsert {R : Type} (fails : Nat → Bool) (txn : Bool)
    (maxRetries : Nat) (rows : List R) : SfInsertOut :=
  if rows.isEmpty then ⟨Except.ok (), 0, 0, 0⟩
  else sfExecuteInsert fails txn maxRetries 0

/-- Embedding of the sub-batch slicing loop of
`SnowflakeDestinationDriver.insert`
(`for (let i = 0; i < rows.length; i += batchSize) rows.slice(i, i +
batchSize)`).  The fuel argument bounds the iteration count; `rows.length`
iterations always suffice when `batchSize ≥ 1` (with `batchSize = 0` the JS
loop never terminates). -/
def snowflakeSlicesGo {R : Type} (batchSize : Nat) :
    Nat → List R → List (List R)
  | 0, _ => []
  | _, [] => []
  | fuel + 1, r :: rest =>
    (r :: rest).take batchSize ::
      snowflakeSlicesGo batchSize fuel ((r :: rest).drop batchSize)

/-- The flush groups `SnowflakeDestinationDriver.insert` sends to the
backend for a given row list and configured batch size. -/
def snowflakeSlices {R : Type} (batchSize : Nat) (rows : List R) :
    List (List R) :=
  snowflakeSlicesGo batchSize rows.length rows

/-- The buffered mutable state of `DatabricksDestinationDriver`:
`pendingRows` and `currentTransaction`. -/
structure DbState (R : Type) where
  pendingRows : List R
  currentTransaction : Bool
deriving Repr, DecidableEq

/-- Result of the `while (attempt < maxRetries)` retry loop inside
`DatabricksDestinationDriver.flushBatch`: propagated result, number of
attempts, number of `ROLLBACK`s, the row group of each `INSERT` statement
issued (one per attempt, always the full buffered group), and the final
`currentTransaction` flag. -/
structure DbLoopOut (R : Type) where
  result : Except String Unit
  attempts : Nat
  rollbacks : Nat
  statements : List (List R)
  ct : Bool
deriving Repr, DecidableEq

/-- Embedding of the retry loop of `DatabricksDestinationDriver.flushBatch`.
The first `Nat` argument is `maxRetries - attempt` (iterations left, the
loop guard `attempt < maxRetries`); each iteration begins a transaction when
enabled and none is open, issues the multi-row `INSERT` for the whole
group, and commits, or on failure increments `attempt`, rolls back an open
transaction, and rethrows once `attempt >= maxRetries`.  `fails i` says
whether the `i`-th attempt throws; a failing attempt is modelled as having
issued its `INSERT` statement (a failure earlier in the attempt would only
drop the statement from the trace, never change its row group). -/
def dbFlushGo {R : Type} (fails : Nat → Bool) (txn : Bool) (rows : List R) :
    Nat → Nat → Bool → DbLoopOut R
  | 0, _, ct => ⟨Except.ok (), 0, 0, [], ct⟩
  | left + 1, i, ct =>
    let ct1 := if txn && !ct then true else ct
    if fails i then
      let rb := if ct1 then 1 else 0
      if left = 0 then
        ⟨Except.error "flush failed", 1, rb, [rows], false⟩
      else
        let rest := dbFlushGo fails txn rows left (i + 1) false
        ⟨rest.result, rest.attempts + 1, rest.rollbacks + rb,
          rows :: rest.statements, rest.ct⟩
    else
      ⟨Except.ok (), 1, 0, [rows], if txn then false else ct1⟩

/-- Outcome of `flushBatch` / `insert` / `close` on the Databricks driver:
the propagated result, the updated buffered state, and the retry-loop
trace. -/
structure DbFlushOut (R : Type) where
  result : Except String Unit
  state : DbState R
  attempts : Nat
  rollbacks : Nat
  statements : List (List R)
deriving Repr, DecidableEq

/-- Embedding of `DatabricksDestinationDriver.flushBatch`: an empty buffer
returns immediately; otherwise the buffer is taken out (`const rows =
this.pendingRows; this.pendingRows = []`) BEFORE the retry loop runs, and
the loop runs with `attempt = 0` and an effective retry bound of
`maxRetries || 3` (a configured 0 falls back to 3).  The connection is
assumed present, as after `connect()`/lazy connect in `insert`. -/
def databricksFlushBatch {R : Type} (txn : Bool) (maxRetries : Nat)
    (fails : Nat → Bool) (st : DbState R) : DbFlushOut R :=
  if st.pendingRows.isEmpty then ⟨Except.ok (), st, 0, 0, []⟩
  else
    let rows := st.pendingRows
    let effMax := if maxRetries = 0 then 3 else maxRetries
    let out := dbFlushGo fails txn rows effMax 0 st.currentTransaction
    ⟨out.result, ⟨[], out.ct⟩, out.attempts, out.rollbacks, out.statements⟩

/-- Embedding of `DatabricksDestinationDriver.insert`: append the incoming
rows to the pending buffer and flush when the buffer has reached
`batchSize || 1000` (a configured 0 falls back to 1000). -/
def databricksInsert {R : Type} (batchSize : Nat) (txn : Bool)
    (maxRetries : Nat) (fails : Nat → Bool) (st : DbState R)
    (rows : List R) : DbFlushOut R :=
  let st1 : DbState R := ⟨st.pendingRows ++ rows, st.currentTransaction⟩
  if (if batchSize = 0 then 1000 else batchSize) ≤ st1.pendingRows.length then
    databricksFlushBatch txn maxRetries fails st1
  else
    ⟨Except.ok (), st1, 0, 0, []⟩

/-- Embedding of `DatabricksDestinationDriver.close`: flush the buffer if it
is non-empty (propagating a flush failure), then commit any dangling
transaction (modelled as succeeding) and release the connection. -/
def databricksClose {R : Type} (txn : Bool) (maxRetries : Nat)
    (fails : Nat → Bool) (st : DbState R) : DbFlushOut R :=
  if 0 < st.pendingRows.length then
    let f := databricksFlushBatch txn maxRetries fails st
    match f.result with
    | Except.error e => ⟨Except.error e, f.state, f.attempts, f.rollbacks, f.statements⟩
    | Except.ok _ =>
      ⟨Except.ok (), ⟨f.state.pendingRows, false⟩, f.attempts, f.rollbacks,
        f.statements⟩
  else
    ⟨Except.ok (), ⟨st.pendingRows, false⟩, 0, 0, []⟩

/-- With an always-failing backend, the Snowflake retry recursion makes one
attempt per unit of remaining budget plus the final budget-exhausted
attempt, rolling back each time when transactions are enabled. -/
lemma sfExecuteInsert_allfail : ∀ (budget i : Nat),
    sfExecuteInsert (fun _ => true) true budget i =
      ⟨Except.error "insert failed", budget + 1, budget + 1, 0⟩ := by
  intro budget
  induction budget with
  | zero => intro i; simp [sfExecuteInsert]
  | succ n ih => intro i; simp [sfExecuteInsert, ih]

/-- `SnowflakeDestinationDriver.insert` on a non-empty row list with an
always-failing backend: `maxRetries + 1` attempts and rollbacks, then the
error surfaces. -/
lemma snowflakeInsert_allfail {R : Type} (m : Nat) (r : R) (rs : List R) :
    snowflakeInsert (fun _ => true) true m (r :: rs) =
      ⟨Except.error "insert failed", m + 1, m + 1, 0⟩ := by
  simp [snowflakeInsert, sfExecuteInsert_allfail]

/-- With an always-failing backend, the Databricks retry loop makes exactly
one attempt (and one rollback, transactions enabled) per remaining loop
iteration, then the error surfaces. -/
lemma dbFlushGo_allfail {R : Type} (rows : List R) :
    ∀ (left i : Nat),
      dbFlushGo (fun _ => true) true rows (left + 1) i false =
        ⟨Except.error "flush failed", left + 1, left + 1,
          List.replicate (left + 1) rows, false⟩ := by
  intro left
  induction left with
  | zero => intro i; rfl
  | succ n ih =>
    intro i
    have hstep : dbFlushGo (fun _ => true) true rows (n + 1 + 1) i false =
        ⟨(dbFlushGo (fun _ => true) true rows (n + 1) (i + 1) false).result,
          (dbFlushGo (fun _ => true) true rows (n + 1) (i + 1) false).attempts + 1,
          (dbFlushGo (fun _ => true) true rows (n + 1) (i + 1) false).rollbacks + 1,
          rows :: (dbFlushGo (fun _ => true) true rows (n + 1) (i + 1) false).statements,
          (dbFlushGo (fun _ => true) true rows (n + 1) (i + 1) false).ct⟩ := rfl
    rw [hstep, ih (i + 1)]
    simp [List.replicate_succ]

/-- `DatabricksDestinationDriver.flushBatch` on a non-empty buffer with an
always-failing backend: exactly `maxRetries || 3` total attempts and
rollbacks, then the error surfaces with the buffer already emptied. -/
lemma databricksFlushBatch_allfail {R : Type} (m : Nat) (r : R) (rs : List R) :
    databricksFlushBatch true m (fun _ => true) ⟨r :: rs, false⟩ =
      ⟨Except.error "flush failed", ⟨[], false⟩, (if m = 0 then 3 else m),
        (if m = 0 then 3 else m),
        List.replicate (if m = 0 then 3 else m) (r :: rs)⟩ := by
  cases m with
  | zero => simp [databricksFlushBatch, dbFlushGo_allfail (r :: rs) 2 0]
  | succ k => simp [databricksFlushBatch, dbFlushGo_allfail (r :: rs) k 0]

/-- Every `INSERT` statement issued by the Databricks retry loop carries the
full row group handed to the loop. -/
lemma dbFlushGo_statements {R : Type} (fails : Nat → Bool) (txn : Bool)
    (rows : List R) :
    ∀ (left i : Nat) (ct : Bool) (stmt : List R),
      stmt ∈ (dbFlushGo fails txn rows left i ct).statements →
      stmt = rows := by
  intro left
  induction left with
  | zero => intro i ct stmt h; simp [dbFlushGo] at h
  | succ n ih =>
    intro i ct stmt h
    simp only [dbFlushGo] at h
    by_cases hf : fails i
    · by_cases hn : n = 0
      · simp [hf, hn] at h
        exact h
      · simp [hf, hn] at h
        rcases h with h | h
        · exact h
        · exact ih _ _ _ h
    · simp [hf] at h
      exact h

/-- Every statement issued by `flushBatch` carries the entire pending buffer
the flush started from. -/
lemma databricksFlushBatch_statements {R : Type} (txn : Bool) (mr : Nat)
    (fails : Nat → Bool) (st : DbState R) (stmt : List R)
    (h : stmt ∈ (databricksFlushBatch txn mr fails st).statements) :
    stmt = st.pendingRows := by
  by_cases hE : st.pendingRows.isEmpty
  · simp [databricksFlushBatch, hE] at h
  · simp only [databricksFlushBatch, hE, Bool.false_eq_true, if_false] at h
    exact dbFlushGo_statements fails txn st.pendingRows _ _ _ stmt h

/-- Whenever `flushBatch` surfaces an error, the buffer was already taken
out before the retry loop, so the resulting state holds no pending rows. -/
lemma databricksFlushBatch_error_pending {R : Type} (txn : Bool) (mr : Nat)
    (fails : Nat → Bool) (st : DbState R) (e : String)
    (h : (databricksFlushBatch txn mr fails st).result = Except.error e) :
    (databricksFlushBatch txn mr fails st).state.pendingRows = [] := by
  by_cases hE : st.pendingRows.isEmpty
  · simp [databricksFlushBatch, hE] at h
  · simp [databricksFlushBatch, hE]

/-- Every statement issued by `DatabricksDestinationDriver.insert` carries
the whole buffer as extended by the inserted rows. -/
lemma databricksInsert_statements {R : Type} (batchSize : Nat) (txn : Bool)
    (mr : Nat) (fails : Nat → Bool) (st : DbState R) (rows stmt : List R)
    (h : stmt ∈ (databricksInsert batchSize txn mr fails st rows).statements) :
    stmt = st.pendingRows ++ rows := by
  simp only [databricksInsert] at h
  split at h
  · split at h
    · have hs := databricksFlushBatch_statements txn mr fails
        ⟨st.pendingRows ++ rows, st.currentTransaction⟩ stmt h
      simpa using hs
    · simp at h
  · split at h
    · have hs := databricksFlushBatch_statements txn mr fails
        ⟨st.pendingRows ++ rows, st.currentTransaction⟩ stmt h
      simpa using hs
    · simp at h

/-- Counterexample to C1: Databricks with `maxRetries = 2` and a backend
that fails on attempts 0 and 1 but would succeed on attempt 2.  The claim
promises up to 2 retries AFTER the first attempt (attempts 0, 1 and 2)
before the error surfaces, so the flush would succeed; the code's loop
counts `maxRetries` TOTAL attempts, surfaces the error after attempts 0 and
1, and never reaches the succeeding attempt. -/
theorem databricks_retry_budget_counterexample :
    (databricksFlushBatch true 2 (fun i => decide (i < 2))
        (⟨[(1 : Int)], false⟩ : DbState Int)).result =
      Except.error "flush failed" ∧
    (databricksFlushBatch true 2 (fun i => decide (i < 2))
        (⟨[(1 : Int)], false⟩ : DbState Int)).attempts = 2 ∧
    (fun i => decide (i < 2)) 2 = false :=
  ⟨rfl, rfl, rfl⟩

/-- C1 as amended: with transactions enabled and a persistently failing
backend, each failed attempt rolls the transaction back, and the error
surfaces only after the adapter's attempt budget is exhausted — but the
budgets differ: Snowflake retries the flush unit `maxRetries` times after
the first attempt (`maxRetries + 1` total attempts), while Databricks makes
only `maxRetries` total attempts, i.e. `maxRetries - 1` retries after the
first (with a configured 0 falling back to 3). -/
theorem flush_retry_amended (m : Nat) (rows : List Int) (h : rows ≠ []) :
    (snowflakeInsert (fun _ => true) true m rows).result =
        Except.error "insert failed" ∧
    (snowflakeInsert (fun _ => true) true m rows).attempts = m + 1 ∧
    (snowflakeInsert (fun _ => true) true m rows).rollbacks = m + 1 ∧
    (databricksFlushBatch true m (fun _ => true)
        (⟨rows, false⟩ : DbState Int)).result = Except.error "flush failed" ∧
    (databricksFlushBatch true m (fun _ => true)
        (⟨rows, false⟩ : DbState Int)).attempts = (if m = 0 then 3 else m) ∧
    (databricksFlushBatch true m (fun _ => true)
        (⟨rows, false⟩ : DbState Int)).rollbacks = (if m = 0 then 3 else m) := by
  rcases rows with _ | ⟨r, rs⟩
  · exact absurd rfl h
  · rw [snowflakeInsert_allfail m r rs, databricksFlushBatch_allfail m r rs]
    exact ⟨rfl, rfl, rfl, rfl, rfl, rfl⟩

/-- Witness for `flush_retry_amended` at `maxRetries = 2` on the pending
group `[1]`: Snowflake makes 3 attempts and rollbacks, Databricks 2. -/
theorem flush_retry_amended_witness :
    ([(1 : Int)] ≠ []) ∧
    ((snowflakeInsert (fun _ => true) true 2 [(1 : Int)]).result =
        Except.error "insert failed" ∧
      (snowflakeInsert (fun _ => true) true 2 [(1 : Int)]).attempts = 2 + 1 ∧
      (snowflakeInsert (fun _ => true) true 2 [(1 : Int)]).rollbacks = 2 + 1 ∧
      (databricksFlushBatch true 2 (fun _ => true)
          (⟨[(1 : Int)], false⟩ : DbState Int)).result =
        Except.error "flush failed" ∧
      (databricksFlushBatch true 2 (fun _ => true)
          (⟨[(1 : Int)], false⟩ : DbState Int)).attempts =
        (if 2 = 0 then 3 else 2) ∧
      (databricksFlushBatch true 2 (fun _ => true)
          (⟨[(1 : Int)], false⟩ : DbState Int)).rollbacks =
        (if 2 = 0 then 3 else 2)) :=
  ⟨by decide, flush_retry_amended 2 [(1 : Int)] (by decide)⟩

/-- Every chunk produced by Snowflake's slicing loop has at most
`batchSize` rows. -/
lemma snowflakeSlicesGo_length_le {R : Type} (batchSize : Nat) :
    ∀ (fuel : Nat) (rows : List R) (c : List R),
      c ∈ snowflakeSlicesGo batchSize fuel rows → c.length ≤ batchSize := by
  intro fuel
  induction fuel with
  | zero => intro rows c hc; simp [snowflakeSlicesGo] at hc
  | succ n ih =>
    intro rows c hc
    cases rows with
    | nil => simp [snowflakeSlicesGo] at hc
    | cons r rest =>
      simp only [snowflakeSlicesGo, List.mem_cons] at hc
      rcases hc with hc | hc
      · subst hc
        simp [List.length_take]
      · exact ih _ _ hc

/-- Counterexample to C8: Databricks configured with `batchSize = 2`
receives 3 rows in one `insert` call; the buffer (3 rows) reaches the
threshold and the entire buffer is flushed as ONE multi-row `INSERT` of 3
rows — a single write group larger than the configured batch size. -/
theorem databricks_flush_size_counterexample :
    (databricksInsert 2 true 1 (fun _ => false) (⟨[], false⟩ : DbState Int)
        [1, 2, 3]).statements = [[1, 2, 3]] ∧
    ¬((3 : Nat) ≤ 2) :=
  ⟨rfl, by decide⟩

/-- C8 as amended: Snowflake's immediate-flush writer slices the rows of an
`insert` call into groups of at most the configured batch size, but
Databricks' buffered writer flushes the ENTIRE pending buffer (previous
buffer plus the newly inserted rows) as a single multi-row `INSERT` once it
reaches the batch size, so a single write group equals the whole buffer and
can exceed the configured batch size. -/
theorem flush_group_size_amended :
    (∀ (batchSize : Nat) (rows : List Int) (c : List Int),
      c ∈ snowflakeSlices batchSize rows → c.length ≤ batchSize) ∧
    (∀ (batchSize : Nat) (txn : Bool) (maxRetries : Nat)
       (fails : Nat → Bool) (st : DbState Int) (rows stmt : List Int),
      stmt ∈ (databricksInsert batchSize txn maxRetries fails st rows).statements →
      stmt = st.pendingRows ++ rows) :=
  ⟨fun batchSize rows c hc => snowflakeSlicesGo_length_le batchSize rows.length rows c hc,
    fun batchSize txn maxRetries fails st rows stmt h =>
      databricksInsert_statements batchSize txn maxRetries fails st rows stmt h⟩

/-- Witness for `flush_group_size_amended`: Snowflake slices `[1,2,3]` at
batch size 2 into `[[1,2],[3]]` with every chunk within bound, and the
Databricks flush of `[1,2,3]` is a single statement equal to the whole
buffer. -/
theorem flush_group_size_amended_witness :
    ([1, 2] ∈ snowflakeSlices 2 [(1 : Int), 2, 3] ∧
      ([1, 2] : List Int).length ≤ 2) ∧
    ([1, 2, 3] ∈ (databricksInsert 2 true 1 (fun _ => false)
        (⟨[], false⟩ : DbState Int) [1, 2, 3]).statements ∧
      ([1, 2, 3] : List Int) =
        (⟨[], false⟩ : DbState Int).pendingRows ++ [1, 2, 3]) :=
  ⟨⟨by decide, flush_group_size_amended.1 2 [(1 : Int), 2, 3] [1, 2] (by decide)⟩,
    ⟨by decide, flush_group_size_amended.2 2 true 1 (fun _ => false)
      (⟨[], false⟩ : DbState Int) [1, 2, 3] [1, 2, 3] (by decide)⟩⟩

/-- C10: `flushBatch` empties the pending buffer before its retry loop
starts, so when a flush surfaces an error after exhausting its retries the
failed rows are gone from the buffer: the post-flush state holds no pending
rows, a subsequent `close()` issues no statement for them, and every
statement of a subsequent `insert(rows2)` carries exactly `rows2`. -/
theorem databricks_failed_flush_buffer (txn : Bool) (mr : Nat)
    (fails : Nat → Bool) (st : DbState Int) (e : String)
    (h : (databricksFlushBatch txn mr fails st).result = Except.error e) :
    (databricksFlushBatch txn mr fails st).state.pendingRows = [] ∧
    (∀ (txn2 : Bool) (mr2 : Nat) (fails2 : Nat → Bool),
      (databricksClose txn2 mr2 fails2
        (databricksFlushBatch txn mr fails st).state).statements = []) ∧
    (∀ (bs2 : Nat) (txn2 : Bool) (mr2 : Nat) (fails2 : Nat → Bool)
       (rows2 stmt : List Int),
      stmt ∈ (databricksInsert bs2 txn2 mr2 fails2
        (databricksFlushBatch txn mr fails st).state rows2).statements →
      stmt = rows2) := by
  have hp := databricksFlushBatch_error_pending txn mr fails st e h
  refine ⟨hp, ?_, ?_⟩
  · intro txn2 mr2 fails2
    simp [databricksClose, hp]
  · intro bs2 txn2 mr2 fails2 rows2 stmt hstmt
    have hs := databricksInsert_statements bs2 txn2 mr2 fails2
      (databricksFlushBatch txn mr fails st).state rows2 stmt hstmt
    rw [hp] at hs
    simpa using hs

/-- Witness for `databricks_failed_flush_buffer`: a flush of the buffer
`[5]` that fails its single permitted attempt leaves no pending rows and a
subsequent `close()` issues no statements. -/
theorem databricks_failed_flush_buffer_witness :
    (databricksFlushBatch true 1 (fun _ => true)
        (⟨[(5 : Int)], false⟩ : DbState Int)).result =
      Except.error "flush failed" ∧
    (databricksFlushBatch true 1 (fun _ => true)
        (⟨[(5 : Int)], false⟩ : DbState Int)).state.pendingRows = [] ∧
    (databricksClose true 1 (fun _ => true)
        (databricksFlushBatch true 1 (fun _ => true)
          (⟨[(5 : Int)], false⟩ : DbState Int)).state).statements = [] := by
  refine ⟨rfl, ?_, ?_⟩
  · exact (databricks_failed_flush_buffer true 1 (fun _ => true)
      (⟨[(5 : Int)], false⟩ : DbState Int) "flush failed" rfl).1
  · exact (databricks_failed_flush_buffer true 1 (fun _ => true)
      (⟨[(5 : Int)], false⟩ : DbState Int) "flush failed" rfl).2.1 true 1
      (fun _ => true)
